import Mathlib

/-!
# Verification of the teuthology OpenStack provisioning core

Shallow embedding of `teuthology/provision/cloud/openstack.py`
(`OpenStackProvider`, `OpenStackProvisioner`) together with proofs of the
specification's claims about size/image selection, volume naming and
rollback, node lookup and destruction, the SSH connectivity wait, inventory
memoization and configuration resolution.
-/

namespace OpenStack

/-! ## Data model -/

/-- One entry of the backend machine-size catalog (`CandidateSize`):
the fields of a libcloud `NodeSize` read by `OpenStackProvisioner.size`. -/
structure NodeSize where
  ram : Nat
  disk : Nat
  vcpus : Nat
  ident : Nat
deriving DecidableEq, Repr

/-- One entry of the backend image catalog (`CandidateImage`):
the fields of a libcloud `NodeImage` read by `OpenStackProvisioner.image`. -/
structure NodeImage where
  name : String
  ident : Nat
deriving DecidableEq, Repr

/-- Errors of the selection code.  The Python source raises `IndexError`
(`matches[0]` / `sorted(...)[0]` on an empty list); the spec names these
failures `NoMatchingSize` and `NoMatchingImage`. -/
inductive SelErr where
  | noMatchingSize
  | noMatchingImage
deriving DecidableEq, Repr

deriving instance DecidableEq for Except

/-! ## String helpers mirroring the Python primitives used by the source -/

/-- Python `str.lower()` on the ASCII strings at play. -/
def pyLower (s : String) : String :=
  String.mk (s.toList.map Char.toLower)

/-- Contiguous-sublist test on character lists. -/
def listContains (pat : List Char) : List Char → Bool
  | [] => pat.isEmpty
  | c :: rest => List.isPrefixOf pat (c :: rest) || listContains pat rest

/-- Python `pat in s` (substring test). -/
def pyIn (pat s : String) : Bool :=
  listContains pat.toList s.toList

/-- Python `s.startswith(pre)`. -/
def pyStartswith (pre s : String) : Bool :=
  List.isPrefixOf pre.toList s.toList

/-! ## Size selection (`OpenStackProvisioner.size`) -/

/-- `good_size` from `OpenStackProvisioner.size`: `False` iff the size
violates one of the three minimums. -/
def good_size (ram disk cpu : Nat) (s : NodeSize) : Bool :=
  !(s.ram < ram || s.disk < disk || s.vcpus < cpu)

/-- Strict lexicographic comparison of the Python sort key
`(s.ram, s.disk, s.vcpus)`. -/
def keyLt (a b : NodeSize) : Bool :=
  a.ram < b.ram ||
    (a.ram == b.ram &&
      (a.disk < b.disk || (a.disk == b.disk && a.vcpus < b.vcpus)))

/-- Non-strict lexicographic order on the sort key, as a proposition. -/
def keyLe (a b : NodeSize) : Prop :=
  a.ram < b.ram ∨
    (a.ram = b.ram ∧
      (a.disk < b.disk ∨ (a.disk = b.disk ∧ a.vcpus ≤ b.vcpus)))

/-- `sorted(good_sizes, key=lambda s: (s.ram, s.disk, s.vcpus))[0]`:
the head of a stable ascending sort is the first element bearing a
lexicographically minimal key, i.e. the running minimum that is replaced
only by a strictly smaller key. -/
def sortedHead : List NodeSize → Option NodeSize
  | [] => none
  | x :: xs => some (xs.foldl (fun best s => if keyLt s best then s else best) x)

/-- `OpenStackProvisioner.size`: filter the catalog by `good_size`, then
take the head of the list sorted by `(ram, disk, vcpus)`.  On an empty
filtered list the Python indexing raises; the spec calls that failure
`NoMatchingSize`. -/
def size (ram disk cpu : Nat) (sizes : List NodeSize) : Except SelErr NodeSize :=
  match sortedHead (sizes.filter (good_size ram disk cpu)) with
  | none => .error .noMatchingSize
  | some s => .ok s

/-! ## Image selection (`OpenStackProvisioner.image`) -/

/-- The body of the `for spec in os_specs` loop: compute the matches of
each pattern in turn and stop at the first pattern with at least one
match (`if matches: break`); if no pattern matched, the loop leaves the
last (empty) `matches`. Note the source lowercases only `image.name`,
not the pattern. -/
def imageLoop (images : List NodeImage) : List String → List NodeImage
  | [] => []
  | pat :: rest =>
    match images.filter (fun im => pyIn pat (pyLower im.name)) with
    | [] => imageLoop images rest
    | m :: ms => m :: ms

/-- `OpenStackProvisioner.image`: try `"os_type os_version"` then
`"os_type-os_version"`; return `matches[0]`, which on an empty list
raises — the spec's `NoMatchingImage`. -/
def image (images : List NodeImage) (os_type os_version : String) :
    Except SelErr NodeImage :=
  let specs := [os_type ++ (" ") ++ os_version, os_type ++ ("-") ++ os_version]
  match imageLoop images specs with
  | [] => .error .noMatchingImage
  | m :: _ => .ok m

/-- The behaviour of `OpenStackProvisioner.image` stated declaratively:
the first image (in catalog order) whose lowercased name contains the
verbatim spaced pattern; failing that, the first whose lowercased name
contains the verbatim hyphenated pattern; else `NoMatchingImage`. -/
def imageCodeRule (images : List NodeImage) (os_type os_version : String) :
    Except SelErr NodeImage :=
  match images.find? (fun im => pyIn (os_type ++ (" ") ++ os_version) (pyLower im.name)) with
  | some im => .ok im
  | none =>
    match images.find? (fun im => pyIn (os_type ++ ("-") ++ os_version) (pyLower im.name)) with
    | some im => .ok im
    | none => .error .noMatchingImage

/-- The image-selection rule in the spec's own words (for comparison with
the code): both the pattern and the image name are compared
case-insensitively, first pattern with a match wins, first match in
catalog order is returned. -/
def imageSpecRule (images : List NodeImage) (os_type os_version : String) :
    Except SelErr NodeImage :=
  let pat1 := os_type ++ (" ") ++ os_version
  let pat2 := os_type ++ ("-") ++ os_version
  match images.find? (fun im => pyIn (pyLower pat1) (pyLower im.name)) with
  | some im => .ok im
  | none =>
    match images.find? (fun im => pyIn (pyLower pat2) (pyLower im.name)) with
    | some im => .ok im
    | none => .error .noMatchingImage

/-! ## Volume naming (`OpenStackProvisioner._create_volumes`)

The source builds `"%s_%0{W}d" % (self.name, i)` with
`W = len(str(vol_count - 1))`: the node name, an underscore, and the
decimal representation of `i` left-padded with `'0'` to minimum width `W`.
-/

/-- Python `str(n)` for a natural number, as a character list: the decimal
digits, most significant first (`"0"` for zero). -/
def decRepr (n : Nat) : List Char :=
  if n = 0 then ['0'] else ((Nat.digits 10 n).map Nat.digitChar).reverse

/-- Python `"%0{w}d" % n`: `decRepr n` left-padded with `'0'` to minimum
width `w`. -/
def fmt0d (w n : Nat) : List Char :=
  List.replicate (w - (decRepr n).length) '0' ++ decRepr n

/-- The number of decimal digits of `n` (one digit for zero), the width
the spec describes for volume-name padding. -/
def numDecimalDigits (n : Nat) : Nat :=
  if n = 0 then 1 else (Nat.digits 10 n).length

/-- `vol_names` from `_create_volumes`: one name per `i in range(vol_count)`,
each `"%s_%0{W}d" % (self.name, i)` with `W = len(str(vol_count - 1))`. -/
def volNames (name : String) (count : Nat) : List String :=
  (List.range count).map
    (fun i => name ++ ("_") ++ String.mk (fmt0d (decRepr (count - 1)).length i))

/-- Python's lexicographic `<` on strings, on character lists. -/
def lexLtB : List Char → List Char → Bool
  | [], [] => false
  | [], _ :: _ => true
  | _ :: _, [] => false
  | a :: as, b :: bs => if a < b then true else if a = b then lexLtB as bs else false

/-- Python `s1 < s2` on strings. -/
def pyStrLt (a b : String) : Bool :=
  lexLtB a.toList b.toList

/-- The exact-width base-10 spelling of `n`: `w` characters, most
significant digit first (digit `k` from the left carries weight
`10 ^ (w - 1 - k)`).  For `n < 10 ^ w` this coincides with `fmt0d w n`;
its structural recursions drive the padding and ordering proofs. -/
def extDigits (w n : Nat) : List Char :=
  (List.range w).map (fun k => Nat.digitChar (n / 10 ^ (w - 1 - k) % 10))

/-! ## Backend state and scripted driver outcomes

The libcloud driver is the external collaborator; its volume store is
modelled as explicit state and the success or failure of each fallible
call is scripted, so that every execution of the provisioning code is a
pure function of the script.
-/

/-- A block volume as the backend sees it. -/
structure Volume where
  name : String
  size : Nat
  attached : Bool
deriving DecidableEq, Repr

/-- The backend's volume store (`driver.list_volumes()` lists exactly
these). -/
structure Cloud where
  volumes : List Volume
deriving DecidableEq, Repr

/-- The externally observable calls the provisioner makes, in order. -/
inductive Event where
  | createNode
  | waitRunning
  | createVolume (name : String)
  | attachVolume (name : String)
  | detachVolume (name : String)
  | destroyVolume (name : String)
  | updateDns
  | settleSleep
  | waitReady
  | destroyNode
deriving DecidableEq, Repr

/-- Scripted outcomes of the fallible driver calls: `create_volume` and
`attach_volume` indexed by the volume number within one
`_create_volumes` run, `detach_volume` and `destroy_volume` by volume
name. -/
structure Script where
  createVolOk : Nat → Bool
  attachVolOk : Nat → Bool
  detachVolOk : String → Bool
  destroyVolOk : String → Bool

/-- A script in which every driver call succeeds. -/
def allOk : Script :=
  ⟨fun _ => true, fun _ => true, fun _ => true, fun _ => true⟩

/-! ## Volume teardown (`OpenStackProvisioner._destroy_volumes`) -/

/-- One iteration of the teardown loop: attempt `detach_volume` then
`destroy_volume`; each failure is logged and swallowed, so a failed
detach still proceeds to destroy and a failed destroy leaves the volume
in the backend. -/
def destroyStep (script : Script) (acc : Cloud × List Event) (v : Volume) :
    Cloud × List Event :=
  let st := acc.1
  let st' : Cloud :=
    if script.detachVolOk v.name then
      ⟨st.volumes.map (fun u => if u.name = v.name then ⟨u.name, u.size, false⟩ else u)⟩
    else st
  let tr' := acc.2 ++ [.detachVolume v.name]
  if script.destroyVolOk v.name then
    (⟨st'.volumes.filter (fun u => u.name != v.name)⟩, tr' ++ [.destroyVolume v.name])
  else (st', tr')

/-- `_destroy_volumes`: list all volumes, keep those whose name starts
with `self.name + "_"`, and detach/destroy each, best effort. -/
def destroyVolumes (script : Script) (name : String) (st : Cloud)
    (tr : List Event) : Cloud × List Event :=
  (st.volumes.filter (fun v => pyStartswith (name ++ ("_")) v.name)).foldl
    (destroyStep script) (st, tr)

/-! ## Volume creation (`OpenStackProvisioner._create_volumes`) -/

/-- The `for name in vol_names` loop wrapped in `try`: create a volume of
`vol_size` then attach it, for each name in turn; at the first
exception, `_destroy_volumes()` runs and the function returns
`False`. -/
def createVolumesLoop (script : Script) (nodeName : String) (sz : Nat)
    (st : Cloud) (tr : List Event) (k : Nat) :
    List String → Bool × Cloud × List Event
  | [] => (true, st, tr)
  | n :: rest =>
    if script.createVolOk k then
      let st1 : Cloud := ⟨st.volumes ++ [⟨n, sz, false⟩]⟩
      let tr1 := tr ++ [.createVolume n]
      if script.attachVolOk k then
        let st2 : Cloud :=
          ⟨st1.volumes.map (fun u => if u.name = n then ⟨u.name, u.size, true⟩ else u)⟩
        createVolumesLoop script nodeName sz st2 (tr1 ++ [.attachVolume n]) (k + 1) rest
      else
        let cleanup := destroyVolumes script nodeName st1 tr1
        (false, cleanup.1, cleanup.2)
    else
      let cleanup := destroyVolumes script nodeName st tr
      (false, cleanup.1, cleanup.2)

/-- `_create_volumes`: returns `True` on success and `False` after an
exception (having already run `_destroy_volumes`). -/
def createVolumes (script : Script) (nodeName : String) (count sz : Nat)
    (st : Cloud) (tr : List Event) : Bool × Cloud × List Event :=
  createVolumesLoop script nodeName sz st tr 0 (volNames nodeName count)

/-- The names of the volumes a trace destroyed, in order. -/
def destroyedNames (tr : List Event) : List String :=
  tr.filterMap (fun e => match e with | .destroyVolume n => some n | _ => none)

/-- The names of the volumes a trace created, in order. -/
def createdNames (tr : List Event) : List String :=
  tr.filterMap (fun e => match e with | .createVolume n => some n | _ => none)

/-- The names of the volumes a trace attempted to detach, in order. -/
def detachedNames (tr : List Event) : List String :=
  tr.filterMap (fun e => match e with | .detachVolume n => some n | _ => none)

/-! ## Node creation (`OpenStackProvisioner._create`) -/

/-- `_create`: create the node, wait until running, call
`_create_volumes()` — discarding its Boolean result exactly as the
source does — then `_update_dns()`, the 20 s settle sleep and
`_wait_for_ready()`, finally returning the node.  The returned flag is
`True` iff the call returns `self.node` (rather than raising). -/
def create (script : Script) (nodeName : String) (volCount volSize : Nat)
    (st : Cloud) : Bool × Cloud × List Event :=
  let tr : List Event := [.createNode, .waitRunning]
  let r := createVolumes script nodeName volCount volSize st tr
  (true, r.2.1, r.2.2 ++ [.updateDns, .settleSleep, .waitReady])

/-! ## Node lookup and destruction (`OpenStackProvisioner.node`, `_destroy`) -/

/-- A compute node as the backend lists it. -/
structure BNode where
  name : String
  ident : Nat
deriving DecidableEq, Repr

/-- Failures of the lookup/destroy path: `RuntimeError("More than one
node found ...")` for a name collision, and the `AttributeError` that
`return self._node` raises when `list_nodes()` is empty so that the
`for` loop never ran and `self._node` was never assigned. -/
inductive NodeErr where
  | ambiguousNode
  | attributeError
deriving DecidableEq, Repr

/-- The `node` property: on an empty `list_nodes()` result the loop body
never runs and the trailing `return self._node` raises `AttributeError`;
otherwise the first iteration filters the list by exact name and either
returns `None` (no match), raises (more than one match) or memoizes the
single match. -/
def nodeLookup (nodes : List BNode) (name : String) :
    Except NodeErr (Option BNode) :=
  match nodes with
  | [] => .error .attributeError
  | _ :: _ =>
    match nodes.filter (fun n => n.name == name) with
    | [] => .ok none
    | [m] => .ok (some m)
    | _ :: _ :: _ => .error .ambiguousNode

/-- `_destroy`: look the node up by name; a falsy (`None`) node yields
`True` with no further calls; otherwise `_destroy_volumes()` then
`self.node.destroy()`. -/
def destroy (script : Script) (nodes : List BNode) (name : String)
    (st : Cloud) : Except NodeErr (Bool × Cloud × List Event) :=
  match nodeLookup nodes name with
  | .error e => .error e
  | .ok none => .ok (true, st, [])
  | .ok (some _) =>
    let r := destroyVolumes script name st []
    .ok (true, r.1, r.2 ++ [.destroyNode])

/-! ## Connectivity wait (`OpenStackProvisioner._wait_for_ready`) -/

/-- Outcome of one `self.remote.connect()` attempt.  The `except` clause
of the source retries on `socket.error`, `NoValidConnectionsError` and
`AuthenticationException` only. -/
inductive ConnAttempt where
  | success
  | connRefused
  | noValidConnections
  | authException
  | otherError
deriving DecidableEq, Repr

/-- Whether an attempt outcome is one of the retried exception kinds. -/
def retryable : ConnAttempt → Bool
  | .connRefused => true
  | .noValidConnections => true
  | .authException => true
  | _ => false

/-- Failure of the connectivity wait: the spec's `ConnectivityTimeout`
(the attempt budget is exhausted), or an exception the `except` clause
does not catch. -/
inductive WaitErr where
  | connectivityTimeout
  | unhandled
deriving DecidableEq, Repr

/-- Modelled from the spec: `teuthology.contextutil.safe_while`, used as
`safe_while(sleep=6, tries=20)`, is not part of the sources; per the
spec the loop is "bounded by a fixed attempt budget (documented
constant: 20 attempts, 6s apart)" after which the wait fails with
`ConnectivityTimeout`.  `attempt i` is the scripted outcome of the i-th
`self.remote.connect()`; the result is the index of the successful
attempt. -/
def connectWaitFrom (attempt : Nat → ConnAttempt) : Nat → Nat → Except WaitErr Nat
  | _, 0 => .error .connectivityTimeout
  | i, fuel + 1 =>
    match attempt i with
    | .success => .ok i
    | .connRefused => connectWaitFrom attempt (i + 1) fuel
    | .noValidConnections => connectWaitFrom attempt (i + 1) fuel
    | .authException => connectWaitFrom attempt (i + 1) fuel
    | .otherError => .error .unhandled

/-- The connectivity wait of `_wait_for_ready`: at most 20 attempts. -/
def connectWait (attempt : Nat → ConnAttempt) : Except WaitErr Nat :=
  connectWaitFrom attempt 0 20

/-- The `sleep` and `tries` arguments the source passes to `safe_while`. -/
def connectWaitSleepSeconds : Nat := 6

/-- The attempt budget the source passes to `safe_while`. -/
def connectWaitTries : Nat := 20

/-! ## Inventory cache (`OpenStackProvider`) -/

/-- The backend driver's listing capabilities.  `ex_list_networks` and
`ex_list_security_groups` are optional libcloud extension methods:
`none` models a driver without the attribute, whose access raises
`AttributeError`. -/
structure Driver where
  listImages : List NodeImage
  listSizes : List NodeSize
  exListNetworks : Option (List String)
  exListSecurityGroups : Option (List String)

/-- The lazily initialized caches behind the four properties
(`hasattr(self, '_images')` and friends). -/
structure ProviderState where
  imagesCache : Option (List NodeImage)
  sizesCache : Option (List NodeSize)
  networksCache : Option (List String)
  securityGroupsCache : Option (List String)
deriving DecidableEq

/-- A provider whose caches are all unset, as right after construction. -/
def freshProvider : ProviderState :=
  ⟨none, none, none, none⟩

/-- The `images` property: on a cache miss call `driver.list_images()`
once and memoize.  The third component counts backend listing calls
made by this access. -/
def getImages (d : Driver) (p : ProviderState) :
    List NodeImage × ProviderState × Nat :=
  match p.imagesCache with
  | some v => (v, p, 0)
  | none => (d.listImages, { p with imagesCache := some d.listImages }, 1)

/-- The `sizes` property. -/
def getSizes (d : Driver) (p : ProviderState) :
    List NodeSize × ProviderState × Nat :=
  match p.sizesCache with
  | some v => (v, p, 0)
  | none => (d.listSizes, { p with sizesCache := some d.listSizes }, 1)

/-- The `networks` property: `driver.ex_list_networks()` under
`try/except AttributeError`, which logs a warning and memoizes the
empty list when the driver lacks the method. -/
def getNetworks (d : Driver) (p : ProviderState) :
    List String × ProviderState × Nat :=
  match p.networksCache with
  | some v => (v, p, 0)
  | none =>
    match d.exListNetworks with
    | some l => (l, { p with networksCache := some l }, 1)
    | none => ([], { p with networksCache := some [] }, 1)

/-- The `security_groups` property, same shape as `networks`. -/
def getSecurityGroups (d : Driver) (p : ProviderState) :
    List String × ProviderState × Nat :=
  match p.securityGroupsCache with
  | some v => (v, p, 0)
  | none =>
    match d.exListSecurityGroups with
    | some l => (l, { p with securityGroupsCache := some l }, 1)
    | none => ([], { p with securityGroupsCache := some [] }, 1)

/-- Run `n` consecutive accesses of one accessor, collecting the returned
values and the total number of backend listing calls. -/
def iterAccess (step : ProviderState → α × ProviderState × Nat) :
    Nat → ProviderState → List α × ProviderState × Nat
  | 0, p => ([], p, 0)
  | n + 1, p =>
    let r := step p
    let rest := iterAccess step n r.2.1
    (r.1 :: rest.1, rest.2.1, r.2.2 + rest.2.2)

/-! ## Configuration resolution (`OpenStackProvisioner._read_conf`) -/

/-- A configuration topic as the source reads it: a mapping from keys
such as `ram` or `count` to integers (a Python dict, so possibly
missing any key). -/
abbrev Topic := List (String × Nat)

/-- One configuration source as seen by `_read_conf`'s inner loop:
an object that may or may not carry each of the two topics (a
list-valued source is first merged into a single mapping, so it also
takes this shape). -/
structure TopicSource where
  machine : Option Topic
  volumes : Option Topic

/-- A source providing neither topic (`conf=None` resolves to this). -/
def emptySource : TopicSource :=
  ⟨none, none⟩

/-- `OpenStackProvisioner.defaults['openstack']`. -/
def defaultsMachine : Topic :=
  [(("disk"), 20), (("ram"), 8000), (("cpus"), 1)]

/-- `OpenStackProvisioner.defaults['openstack']`, `volumes` topic. -/
def defaultsVolumes : Topic :=
  [(("count"), 0), (("size"), 0)]

/-- The first source whose value for a topic is not `None`. -/
def firstSome : List (Option Topic) → Option Topic
  | [] => none
  | some t :: _ => some t
  | none :: rest => firstSome rest

/-- `_read_conf` for a driver named `openstack`: for each of the topics
`machine` and `volumes`, scan `full_conf`, `full_conf['openstack']`,
the legacy global config section and the compiled-in defaults, and take
the first non-`None` value wholesale. -/
def readConf (full driverSec legacy : TopicSource) : TopicSource :=
  ⟨firstSome [full.machine, driverSec.machine, legacy.machine, some defaultsMachine],
   firstSome [full.volumes, driverSec.volumes, legacy.volumes, some defaultsVolumes]⟩

/-- Python `topic['key']` on a resolved topic: `none` is a `KeyError`. -/
def topicGet (t : Topic) (key : String) : Option Nat :=
  (List.lookup key t)

/-! ## Order-theoretic facts about the size sort key -/

theorem keyLe_refl (a : NodeSize) : keyLe a a := by
  simp [keyLe]

theorem keyLe_trans {a b c : NodeSize} (h1 : keyLe a b) (h2 : keyLe b c) :
    keyLe a c := by
  simp only [keyLe] at *
  omega

theorem keyLe_of_keyLt {a b : NodeSize} (h : keyLt a b = true) : keyLe a b := by
  simp only [keyLt, keyLe, Bool.or_eq_true, Bool.and_eq_true, decide_eq_true_eq,
    beq_iff_eq] at *
  omega

theorem keyLe_of_not_keyLt {a b : NodeSize} (h : keyLt a b = false) : keyLe b a := by
  simp only [keyLt, keyLe, Bool.or_eq_false_iff, Bool.and_eq_false_iff,
    decide_eq_false_iff_not, beq_eq_false_iff_ne, ne_eq, Bool.or_eq_false_iff] at *
  omega

/-- The running minimum computed by `sortedHead` is one of the scanned
elements. -/
theorem foldlMin_mem :
    ∀ (xs : List NodeSize) (x : NodeSize),
      xs.foldl (fun best s => if keyLt s best then s else best) x ∈ x :: xs := by
  intro xs
  induction xs with
  | nil => intro x; simp
  | cons s rest ih =>
    intro x
    simp only [List.foldl_cons]
    by_cases h : keyLt s x = true
    · simp only [h, if_true]
      rcases List.mem_cons.mp (ih s) with h' | h'
      · simp [h']
      · exact List.mem_cons_of_mem _ (List.mem_cons_of_mem _ h')
    · simp only [Bool.not_eq_true] at h
      simp only [h, Bool.false_eq_true, if_false]
      rcases List.mem_cons.mp (ih x) with h' | h'
      · simp [h']
      · exact List.mem_cons_of_mem _ (List.mem_cons_of_mem _ h')

/-- The running minimum is lexicographically `≤` every scanned element. -/
theorem foldlMin_le :
    ∀ (xs : List NodeSize) (x : NodeSize) (t : NodeSize), t ∈ x :: xs →
      keyLe (xs.foldl (fun best s => if keyLt s best then s else best) x) t := by
  intro xs
  induction xs with
  | nil =>
    intro x t ht
    rcases List.mem_cons.mp ht with rfl | h
    · exact keyLe_refl _
    · cases h
  | cons s rest ih =>
    intro x t ht
    simp only [List.foldl_cons]
    by_cases h : keyLt s x = true
    · simp only [h, if_true]
      rcases List.mem_cons.mp ht with h1 | h1
      · rw [h1]
        exact keyLe_trans (ih s s (List.mem_cons_self s rest)) (keyLe_of_keyLt h)
      · exact ih s t h1
    · simp only [Bool.not_eq_true] at h
      simp only [h, Bool.false_eq_true, if_false]
      rcases List.mem_cons.mp ht with h1 | h1
      · rw [h1]
        exact ih x x (List.mem_cons_self x rest)
      · rcases List.mem_cons.mp h1 with h2 | h2
        · rw [h2]
          exact keyLe_trans (ih x x (List.mem_cons_self x rest)) (keyLe_of_not_keyLt h)
        · exact ih x t (List.mem_cons_of_mem _ h2)

/-! ## Claims about size selection -/

/-- **C2.** For every size catalog and requirement triple satisfied by at
least one entry, `OpenStackProvisioner.size` returns an entry of the
catalog that satisfies all three minimums and is minimal among the
satisfying entries in lexicographic `(ram, disk, vcpus)` order. -/
theorem size_selects_lex_minimal_satisfying (ram disk cpu : Nat)
    (sizes : List NodeSize)
    (hex : ∃ s ∈ sizes, good_size ram disk cpu s = true) :
    ∃ s, size ram disk cpu sizes = .ok s ∧ s ∈ sizes ∧
      good_size ram disk cpu s = true ∧
      ∀ t ∈ sizes, good_size ram disk cpu t = true → keyLe s t := by
  obtain ⟨w, hw, hgood⟩ := hex
  have hmem : w ∈ sizes.filter (good_size ram disk cpu) :=
    List.mem_filter.mpr ⟨hw, hgood⟩
  obtain ⟨x, xs, hfil⟩ : ∃ x xs, sizes.filter (good_size ram disk cpu) = x :: xs := by
    cases hfl : sizes.filter (good_size ram disk cpu) with
    | nil => rw [hfl] at hmem; cases hmem
    | cons x xs => exact ⟨x, xs, rfl⟩
  refine ⟨xs.foldl (fun best s => if keyLt s best then s else best) x, ?_, ?_, ?_, ?_⟩
  · simp [size, sortedHead, hfil]
  · have := foldlMin_mem xs x
    rw [← hfil] at this
    exact (List.mem_filter.mp this).1
  · have := foldlMin_mem xs x
    rw [← hfil] at this
    exact (List.mem_filter.mp this).2
  · intro t ht hgt
    exact foldlMin_le xs x t (hfil ▸ List.mem_filter.mpr ⟨ht, hgt⟩)

/-- Witness for C2: the spec's end-to-end example catalog; requirements
`ram=8000, disk=20, cpus=1` select the entry `(8000, 20, 2)`. -/
theorem size_selects_lex_minimal_satisfying_witness :
    (∃ s ∈ [(⟨4000, 10, 1, 0⟩ : NodeSize), ⟨8000, 20, 2, 1⟩, ⟨16000, 40, 4, 2⟩],
        good_size 8000 20 1 s = true) ∧
    ∃ s, size 8000 20 1
        [(⟨4000, 10, 1, 0⟩ : NodeSize), ⟨8000, 20, 2, 1⟩, ⟨16000, 40, 4, 2⟩] = .ok s ∧
      s ∈ [(⟨4000, 10, 1, 0⟩ : NodeSize), ⟨8000, 20, 2, 1⟩, ⟨16000, 40, 4, 2⟩] ∧
      good_size 8000 20 1 s = true ∧
      ∀ t ∈ [(⟨4000, 10, 1, 0⟩ : NodeSize), ⟨8000, 20, 2, 1⟩, ⟨16000, 40, 4, 2⟩],
        good_size 8000 20 1 t = true → keyLe s t :=
  ⟨⟨⟨8000, 20, 2, 1⟩, by decide, by decide⟩,
    size_selects_lex_minimal_satisfying 8000 20 1 _
      ⟨⟨8000, 20, 2, 1⟩, by decide, by decide⟩⟩

/-- **C3.** When no catalog entry satisfies all three minimums, size
selection fails with `NoMatchingSize` and returns no size. -/
theorem size_fails_noMatchingSize (ram disk cpu : Nat) (sizes : List NodeSize)
    (h : ∀ s ∈ sizes, good_size ram disk cpu s = false) :
    size ram disk cpu sizes = .error .noMatchingSize := by
  have : sizes.filter (good_size ram disk cpu) = [] :=
    List.filter_eq_nil_iff.mpr (fun s hs => by simp [h s hs])
  simp [size, sortedHead, this]

/-- Witness for C3: a one-entry catalog that violates the RAM minimum. -/
theorem size_fails_noMatchingSize_witness :
    (∀ s ∈ [(⟨4000, 10, 1, 0⟩ : NodeSize)], good_size 8000 20 1 s = false) ∧
    size 8000 20 1 [(⟨4000, 10, 1, 0⟩ : NodeSize)] = .error .noMatchingSize :=
  ⟨by decide, size_fails_noMatchingSize 8000 20 1 _ (by decide)⟩

/-! ## Claims about image selection -/

theorem find?_eq_filter_head? (p : α → Bool) :
    ∀ l : List α, l.find? p = (l.filter p).head? := by
  intro l
  induction l with
  | nil => rfl
  | cons a t ih =>
    by_cases h : p a = true
    · rw [List.find?_cons_of_pos _ h, List.filter_cons_of_pos h, List.head?_cons]
    · rw [List.find?_cons_of_neg _ (by simp [h]), List.filter_cons_of_neg (by simp [h]), ih]

/-- **C4 (counterexample).** With catalog `["Ubuntu 16.04"]` and
`os_type="Ubuntu", os_version="16.04"`, the first pattern matches the
image name case-insensitively — the spec's rule (`imageSpecRule`)
selects the image — yet the code fails with `NoMatchingImage`, because
it lowercases only the image name and not the pattern. -/
theorem image_not_case_insensitive :
    imageSpecRule [⟨("Ubuntu 16.04"), 0⟩] ("Ubuntu") ("16.04") =
      .ok ⟨("Ubuntu 16.04"), 0⟩ ∧
    image [⟨("Ubuntu 16.04"), 0⟩] ("Ubuntu") ("16.04") = .error .noMatchingImage := by
  decide

/-- **C4 (amended).** Image selection tries `"os_type os_version"` and
then `"os_type-os_version"`, each matched verbatim as a substring of
the *lowercased* image name (case-insensitive in the image name only);
it returns the first match in catalog order of the first pattern that
yields a match, and fails with `NoMatchingImage` when neither pattern
matches any image. -/
theorem image_eq_imageCodeRule (images : List NodeImage) (ot ov : String) :
    image images ot ov = imageCodeRule images ot ov := by
  simp only [image, imageCodeRule, find?_eq_filter_head?]
  cases h1 : images.filter (fun im => pyIn (ot ++ (" ") ++ ov) (pyLower im.name)) with
  | cons m ms => simp [imageLoop, h1]
  | nil =>
    simp only [imageLoop, h1]
    cases h2 : images.filter (fun im => pyIn (ot ++ ("-") ++ ov) (pyLower im.name)) with
    | nil => simp [imageLoop, h2]
    | cons m ms => simp [imageLoop, h2]

/-! ## Claims about node lookup and destroy (C7) -/

/-- **C7.** Lookup and destroy behaviour at each match count.  The last
two conjuncts exhibit the intended behaviour (collision → error, one
match → returned, no match among existing nodes → destroy is a no-op
success touching neither volumes nor the node); the first two exhibit
the failing input: with `list_nodes()` empty the loop never runs and
`return self._node` raises `AttributeError`, so `destroy` propagates an
exception instead of returning no-op success as the spec states. -/
theorem nodeLookup_destroy_eval :
    nodeLookup [] ("foo") = .error .attributeError ∧
    destroy allOk [] ("foo") ⟨[]⟩ = .error .attributeError ∧
    nodeLookup [⟨("foo"), 0⟩, ⟨("foo"), 1⟩] ("foo") = .error .ambiguousNode ∧
    nodeLookup [⟨("foo"), 0⟩, ⟨("bar"), 1⟩] ("foo") = .ok (some ⟨("foo"), 0⟩) ∧
    destroy allOk [⟨("bar"), 1⟩] ("foo") ⟨[⟨("foo_0"), 1, true⟩]⟩ =
      .ok (true, ⟨[⟨("foo_0"), 1, true⟩]⟩, []) := by
  decide

/-! ## Claim about the create flow ignoring volume failure (C1) -/

/-- **C1.** With one volume requested and its attach scripted to fail,
`_create_volumes` signals failure (`False`) and rolls its volume back,
but `_create` discards that signal: the run still registers DNS, probes
readiness and returns the node as a success, and never invokes node
destruction — contradicting the claim that the create operation
invokes `destroy` and surfaces the volume error. -/
theorem create_ignores_volume_failure :
    (createVolumes ⟨fun _ => true, fun _ => false, fun _ => true, fun _ => true⟩
      ("n") 1 1 ⟨[]⟩ [.createNode, .waitRunning]).1 = false ∧
    (create ⟨fun _ => true, fun _ => false, fun _ => true, fun _ => true⟩
      ("n") 1 1 ⟨[]⟩).1 = true ∧
    (create ⟨fun _ => true, fun _ => false, fun _ => true, fun _ => true⟩
      ("n") 1 1 ⟨[]⟩).2.2 =
      [.createNode, .waitRunning, .createVolume ("n_0"), .detachVolume ("n_0"),
       .destroyVolume ("n_0"), .updateDns, .settleSleep, .waitReady] ∧
    Event.updateDns ∈ (create ⟨fun _ => true, fun _ => false, fun _ => true,
      fun _ => true⟩ ("n") 1 1 ⟨[]⟩).2.2 ∧
    Event.waitReady ∈ (create ⟨fun _ => true, fun _ => false, fun _ => true,
      fun _ => true⟩ ("n") 1 1 ⟨[]⟩).2.2 ∧
    Event.destroyNode ∉ (create ⟨fun _ => true, fun _ => false, fun _ => true,
      fun _ => true⟩ ("n") 1 1 ⟨[]⟩).2.2 := by
  decide

/-! ## Claims about the connectivity wait (C8) -/

theorem connectWaitFrom_ok_lt (attempt : Nat → ConnAttempt) :
    ∀ fuel i j, connectWaitFrom attempt i fuel = .ok j → j < i + fuel := by
  intro fuel
  induction fuel with
  | zero => intro i j h; simp [connectWaitFrom] at h
  | succ f ih =>
    intro i j h
    cases ha : attempt i <;> simp only [connectWaitFrom, ha] at h
    · cases h; omega
    · have := ih (i + 1) j h; omega
    · have := ih (i + 1) j h; omega
    · have := ih (i + 1) j h; omega
    · simp at h

theorem connectWaitFrom_success (attempt : Nat → ConnAttempt) :
    ∀ fuel i n, i ≤ n → n < i + fuel →
      (∀ k, i ≤ k → k < n → retryable (attempt k) = true) →
      attempt n = .success → connectWaitFrom attempt i fuel = .ok n := by
  intro fuel
  induction fuel with
  | zero => intro i n h1 h2 _ _; omega
  | succ f ih =>
    intro i n h1 h2 h3 h4
    by_cases hin : i = n
    · subst hin
      simp [connectWaitFrom, h4]
    · have hlt : i < n := by omega
      have hr : retryable (attempt i) = true := h3 i (Nat.le_refl i) hlt
      cases ha : attempt i <;> rw [ha] at hr <;> simp only [retryable] at hr
      · cases hr
      all_goals first
        | (simp only [connectWaitFrom, ha]
           exact ih (i + 1) n (by omega) (by omega)
             (fun k hk1 hk2 => h3 k (by omega) hk2) h4)
        | cases hr

theorem connectWaitFrom_timeout (attempt : Nat → ConnAttempt) :
    ∀ fuel i, (∀ k, i ≤ k → k < i + fuel → retryable (attempt k) = true) →
      connectWaitFrom attempt i fuel = .error .connectivityTimeout := by
  intro fuel
  induction fuel with
  | zero => intro i _; simp [connectWaitFrom]
  | succ f ih =>
    intro i h
    have hr : retryable (attempt i) = true := h i (Nat.le_refl i) (by omega)
    cases ha : attempt i <;> rw [ha] at hr <;> simp only [retryable] at hr
    · cases hr
    all_goals first
      | (simp only [connectWaitFrom, ha]
         exact ih (i + 1) (fun k hk1 hk2 => h k (by omega) (by omega)))
      | cases hr

/-- **C8.** The connectivity wait makes at most 20 attempts (any success
index is `< 20`); it succeeds at the first successful attempt within
the budget provided the earlier attempts failed with one of the retried
error kinds; and when all 20 attempts fail with retried error kinds it
fails with `ConnectivityTimeout`. -/
theorem connectivity_wait_budget (attempt : Nat → ConnAttempt) (n : Nat) :
    (∀ i, connectWait attempt = .ok i → i < connectWaitTries) ∧
    (n < connectWaitTries → (∀ k, k < n → retryable (attempt k) = true) →
      attempt n = .success → connectWait attempt = .ok n) ∧
    ((∀ k, k < connectWaitTries → retryable (attempt k) = true) →
      connectWait attempt = .error .connectivityTimeout) := by
  refine ⟨?_, ?_, ?_⟩
  · intro i h
    have := connectWaitFrom_ok_lt attempt 20 0 i h
    simpa [connectWaitTries] using this
  · intro h1 h2 h3
    exact connectWaitFrom_success attempt 20 0 n (Nat.zero_le n)
      (by simp [connectWaitTries] at h1; omega)
      (fun k _ hk2 => h2 k hk2) h3
  · intro h
    exact connectWaitFrom_timeout attempt 20 0
      (fun k _ hk2 => h k (by simpa [connectWaitTries] using hk2))

/-- Witness for C8: 19 connection refusals followed by a success yield
success at attempt 19; a script of nothing but refusals exhausts the
budget and times out. -/
theorem connectivity_wait_budget_witness :
    (19 < connectWaitTries ∧
      (∀ k, k < 19 →
        retryable ((fun i => if i < 19 then ConnAttempt.connRefused
          else ConnAttempt.success) k) = true) ∧
      (fun i => if i < 19 then ConnAttempt.connRefused else ConnAttempt.success) 19 =
        ConnAttempt.success) ∧
    connectWait (fun i => if i < 19 then ConnAttempt.connRefused
      else ConnAttempt.success) = .ok 19 ∧
    connectWait (fun _ => ConnAttempt.connRefused) = .error .connectivityTimeout :=
  ⟨⟨by decide, by decide, by decide⟩,
    (connectivity_wait_budget (fun i => if i < 19 then ConnAttempt.connRefused
      else ConnAttempt.success) 19).2.1 (by decide) (by decide) (by decide),
    (connectivity_wait_budget (fun _ => ConnAttempt.connRefused) 0).2.2 (by decide)⟩

/-! ## Claims about the inventory cache (C9) -/

/-- Once an accessor's step function fixes the state, iterating it only
repeats the cached value and makes no further backend calls. -/
theorem iterAccess_stable (step : ProviderState → α × ProviderState × Nat)
    (p : ProviderState) (v : α) (hstep : step p = (v, p, 0)) :
    ∀ n, iterAccess step n p = (List.replicate n v, p, 0) := by
  intro n
  induction n with
  | zero => simp [iterAccess]
  | succ m ih => simp [iterAccess, hstep, ih, List.replicate_succ]

/-- An accessor whose first access from the fresh state performs one
backend call and caches, and whose cached access is free, performs
exactly one call over any positive number of accesses. -/
theorem iterAccess_once (step : ProviderState → α × ProviderState × Nat)
    (v : α) (p1 : ProviderState) (h0 : step freshProvider = (v, p1, 1))
    (h1 : step p1 = (v, p1, 0)) (m : Nat) :
    iterAccess step (m + 1) freshProvider = (List.replicate (m + 1) v, p1, 1) := by
  simp [iterAccess, h0, iterAccess_stable step p1 v h1, List.replicate_succ]

/-- **C9.** Over any positive number of accesses within one session, each
of the four inventory accessors performs exactly one backend listing
call and every access returns the same memoized value; a driver lacking
the network or security-group listing capability yields the empty list
(and not an error). -/
theorem inventory_memoization (d : Driver) (n : Nat) (hn : 1 ≤ n) :
    (iterAccess (getImages d) n freshProvider).2.2 = 1 ∧
    (iterAccess (getImages d) n freshProvider).1 = List.replicate n d.listImages ∧
    (iterAccess (getSizes d) n freshProvider).2.2 = 1 ∧
    (iterAccess (getSizes d) n freshProvider).1 = List.replicate n d.listSizes ∧
    (iterAccess (getNetworks d) n freshProvider).2.2 = 1 ∧
    (iterAccess (getNetworks d) n freshProvider).1 =
      List.replicate n (d.exListNetworks.getD []) ∧
    (d.exListNetworks = none →
      (iterAccess (getNetworks d) n freshProvider).1 = List.replicate n []) ∧
    (iterAccess (getSecurityGroups d) n freshProvider).2.2 = 1 ∧
    (iterAccess (getSecurityGroups d) n freshProvider).1 =
      List.replicate n (d.exListSecurityGroups.getD []) ∧
    (d.exListSecurityGroups = none →
      (iterAccess (getSecurityGroups d) n freshProvider).1 = List.replicate n []) := by
  obtain ⟨m, rfl⟩ : ∃ m, n = m + 1 := ⟨n - 1, by omega⟩
  have himg := iterAccess_once (getImages d) d.listImages
    ⟨some d.listImages, none, none, none⟩ rfl rfl m
  have hsiz := iterAccess_once (getSizes d) d.listSizes
    ⟨none, some d.listSizes, none, none⟩ rfl rfl m
  have hnet : iterAccess (getNetworks d) (m + 1) freshProvider =
      (List.replicate (m + 1) (d.exListNetworks.getD []),
        ⟨none, none, some (d.exListNetworks.getD []), none⟩, 1) := by
    cases hx : d.exListNetworks with
    | none =>
      simpa [hx] using iterAccess_once (getNetworks d) []
        ⟨none, none, some [], none⟩ (by simp [getNetworks, freshProvider, hx]) rfl m
    | some l =>
      simpa [hx] using iterAccess_once (getNetworks d) l
        ⟨none, none, some l, none⟩ (by simp [getNetworks, freshProvider, hx]) rfl m
  have hsec : iterAccess (getSecurityGroups d) (m + 1) freshProvider =
      (List.replicate (m + 1) (d.exListSecurityGroups.getD []),
        ⟨none, none, none, some (d.exListSecurityGroups.getD [])⟩, 1) := by
    cases hx : d.exListSecurityGroups with
    | none =>
      simpa [hx] using iterAccess_once (getSecurityGroups d) []
        ⟨none, none, none, some []⟩ (by simp [getSecurityGroups, freshProvider, hx]) rfl m
    | some l =>
      simpa [hx] using iterAccess_once (getSecurityGroups d) l
        ⟨none, none, none, some l⟩ (by simp [getSecurityGroups, freshProvider, hx]) rfl m
  refine ⟨by rw [himg], by rw [himg], by rw [hsiz], by rw [hsiz], by rw [hnet],
    by rw [hnet], ?_, by rw [hsec], by rw [hsec], ?_⟩
  · intro hx; rw [hnet, hx]; rfl
  · intro hx; rw [hsec, hx]; rfl

/-- Witness for C9: two accesses against a driver lacking both optional
listing capabilities. -/
theorem inventory_memoization_witness :
    (1 ≤ 2) ∧
    ((iterAccess (getImages ⟨[⟨("img"), 0⟩], [⟨1, 1, 1, 0⟩], none, none⟩) 2
        freshProvider).2.2 = 1 ∧
      (iterAccess (getImages ⟨[⟨("img"), 0⟩], [⟨1, 1, 1, 0⟩], none, none⟩) 2
        freshProvider).1 = List.replicate 2 [⟨("img"), 0⟩] ∧
      (iterAccess (getSizes ⟨[⟨("img"), 0⟩], [⟨1, 1, 1, 0⟩], none, none⟩) 2
        freshProvider).2.2 = 1 ∧
      (iterAccess (getSizes ⟨[⟨("img"), 0⟩], [⟨1, 1, 1, 0⟩], none, none⟩) 2
        freshProvider).1 = List.replicate 2 [⟨1, 1, 1, 0⟩] ∧
      (iterAccess (getNetworks ⟨[⟨("img"), 0⟩], [⟨1, 1, 1, 0⟩], none, none⟩) 2
        freshProvider).2.2 = 1 ∧
      (iterAccess (getNetworks ⟨[⟨("img"), 0⟩], [⟨1, 1, 1, 0⟩], none, none⟩) 2
        freshProvider).1 = List.replicate 2 ((none : Option (List String)).getD []) ∧
      ((none : Option (List String)) = none →
        (iterAccess (getNetworks ⟨[⟨("img"), 0⟩], [⟨1, 1, 1, 0⟩], none, none⟩) 2
          freshProvider).1 = List.replicate 2 []) ∧
      (iterAccess (getSecurityGroups ⟨[⟨("img"), 0⟩], [⟨1, 1, 1, 0⟩], none, none⟩) 2
        freshProvider).2.2 = 1 ∧
      (iterAccess (getSecurityGroups ⟨[⟨("img"), 0⟩], [⟨1, 1, 1, 0⟩], none, none⟩) 2
        freshProvider).1 = List.replicate 2 ((none : Option (List String)).getD []) ∧
      ((none : Option (List String)) = none →
        (iterAccess (getSecurityGroups ⟨[⟨("img"), 0⟩], [⟨1, 1, 1, 0⟩], none, none⟩) 2
          freshProvider).1 = List.replicate 2 [])) :=
  ⟨by decide, inventory_memoization ⟨[⟨("img"), 0⟩], [⟨1, 1, 1, 0⟩], none, none⟩ 2
    (by decide)⟩

/-! ## Claims about configuration resolution (C10) -/

/-- **C10 (counterexample).** A caller-supplied `machine` topic that is
an empty mapping is not `None`, so it wins the precedence scan; the
resolved configuration then has a non-null `machine` entry on which the
`ram` lookup nevertheless fails — refuting the claim that the resolved
configuration makes the `ram`/`disk`/`cpus`/`count`/`size` lookups
never fail. -/
theorem readConf_incomplete_topic_fails :
    (readConf ⟨some [], none⟩ emptySource emptySource).machine = some [] ∧
    ((readConf ⟨some [], none⟩ emptySource emptySource).machine.bind
      (fun t => topicGet t ("ram"))) = none := by
  decide

/-- **C10 (amended).** Configuration resolution always yields non-null
`machine` and `volumes` entries (the compiled-in defaults guarantee
both topics); moreover, whenever no source supplies a topic, that topic
resolves to the compiled-in default, on which the `ram`, `disk`,
`cpus`, `count` and `size` lookups all succeed.  (A source may still
supply a topic missing keys, in which case lookups can fail.) -/
theorem readConf_topics_present (full drv leg : TopicSource) :
    (readConf full drv leg).machine.isSome = true ∧
    (readConf full drv leg).volumes.isSome = true ∧
    (full.machine = none → drv.machine = none → leg.machine = none →
      (readConf full drv leg).machine = some defaultsMachine ∧
      topicGet defaultsMachine ("ram") = some 8000 ∧
      topicGet defaultsMachine ("disk") = some 20 ∧
      topicGet defaultsMachine ("cpus") = some 1) ∧
    (full.volumes = none → drv.volumes = none → leg.volumes = none →
      (readConf full drv leg).volumes = some defaultsVolumes ∧
      topicGet defaultsVolumes ("count") = some 0 ∧
      topicGet defaultsVolumes ("size") = some 0) := by
  refine ⟨?_, ?_, ?_, ?_⟩
  · cases h1 : full.machine <;> cases h2 : drv.machine <;> cases h3 : leg.machine <;>
      simp [readConf, firstSome, h1, h2, h3]
  · cases h1 : full.volumes <;> cases h2 : drv.volumes <;> cases h3 : leg.volumes <;>
      simp [readConf, firstSome, h1, h2, h3]
  · intro h1 h2 h3
    refine ⟨by simp [readConf, firstSome, h1, h2, h3], by decide, by decide, by decide⟩
  · intro h1 h2 h3
    refine ⟨by simp [readConf, firstSome, h1, h2, h3], by decide, by decide⟩

/-- Witness for C10: resolving with no configuration at all (`conf=None`)
lands on the compiled-in defaults for both topics. -/
theorem readConf_topics_present_witness :
    (readConf emptySource emptySource emptySource).machine.isSome = true ∧
    (readConf emptySource emptySource emptySource).volumes.isSome = true ∧
    (readConf emptySource emptySource emptySource).machine = some defaultsMachine ∧
    topicGet defaultsMachine ("ram") = some 8000 ∧
    topicGet defaultsMachine ("disk") = some 20 ∧
    topicGet defaultsMachine ("cpus") = some 1 ∧
    (readConf emptySource emptySource emptySource).volumes = some defaultsVolumes ∧
    topicGet defaultsVolumes ("count") = some 0 ∧
    topicGet defaultsVolumes ("size") = some 0 := by
  have h := readConf_topics_present emptySource emptySource emptySource
  have hm := h.2.2.1 rfl rfl rfl
  have hv := h.2.2.2 rfl rfl rfl
  exact ⟨h.1, h.2.1, hm.1, hm.2.1, hm.2.2.1, hm.2.2.2, hv.1, hv.2.1, hv.2.2⟩

/-! ## String facts shared by the volume-naming and rollback claims -/

theorem strApp_inj (s a b : String) : (s ++ a) = (s ++ b) ↔ a = b := by
  constructor
  · intro h
    have hd : s.data ++ a.data = s.data ++ b.data := by
      simpa [String.data_append] using congrArg String.data h
    exact String.ext (List.append_cancel_left hd)
  · intro h; rw [h]

theorem isPrefixOf_self_append (l t : List Char) : List.isPrefixOf l (l ++ t) = true := by
  induction l with
  | nil => simp [List.isPrefixOf]
  | cons c cs ih => simp [List.isPrefixOf, ih]

theorem pyStartswith_self_append (p q : String) : pyStartswith p (p ++ q) = true := by
  have : (p ++ q).toList = p.toList ++ q.toList := by
    simp [String.toList, String.data_append]
  simp [pyStartswith, this, isPrefixOf_self_append]

/-! ## Decimal representation facts (towards C5) -/

theorem decRepr_length (n : Nat) : (decRepr n).length = numDecimalDigits n := by
  by_cases h : n = 0
  · simp [decRepr, numDecimalDigits, h]
  · simp [decRepr, numDecimalDigits, h]

theorem decRepr_length_pos (n : Nat) : 1 ≤ (decRepr n).length := by
  by_cases h : n = 0
  · simp [decRepr, h]
  · have h2 : Nat.digits 10 n ≠ [] := Nat.digits_ne_nil_iff_ne_zero.mpr h
    have h3 := List.length_pos.mpr h2
    simp only [decRepr, h, if_false, List.length_reverse, List.length_map]
    omega

theorem lt_pow_decRepr_length (n : Nat) : n < 10 ^ (decRepr n).length := by
  by_cases h : n = 0
  · simp [decRepr, h]
  · have hl : (decRepr n).length = (Nat.digits 10 n).length := by
      simp [decRepr, h]
    rw [hl]
    exact Nat.lt_base_pow_length_digits (by norm_num)

theorem decRepr_small {n : Nat} (h : n < 10) : decRepr n = [Nat.digitChar n] := by
  by_cases h0 : n = 0
  · subst h0; decide
  · simp [decRepr, h0, Nat.digits_of_lt 10 n h0 h]

theorem decRepr_ten_le {n : Nat} (h : 10 ≤ n) :
    decRepr n = decRepr (n / 10) ++ [Nat.digitChar (n % 10)] := by
  have hn : n ≠ 0 := by omega
  have hd : n / 10 ≠ 0 := by
    have : 0 < n / 10 := Nat.div_pos h (by norm_num)
    omega
  simp only [decRepr, hn, hd, if_false]
  rw [Nat.digits_def' (by norm_num : (1 : Nat) < 10) (by omega : 0 < n)]
  simp

theorem extDigits_succ_last (w n : Nat) :
    extDigits (w + 1) n = extDigits w (n / 10) ++ [Nat.digitChar (n % 10)] := by
  unfold extDigits
  rw [List.range_succ, List.map_append]
  congr 1
  · apply List.map_congr_left
    intro k hk
    have hk' : k < w := List.mem_range.mp hk
    have h1 : w + 1 - 1 - k = (w - 1 - k) + 1 := by omega
    rw [h1]
    congr 2
    rw [Nat.div_div_eq_div_mul]
    congr 1
    ring
  · have h0 : w + 1 - 1 - w = 0 := by omega
    simp [h0]

theorem extDigits_msb (w n : Nat) :
    extDigits (w + 1) n = Nat.digitChar (n / 10 ^ w % 10) :: extDigits w n := by
  unfold extDigits
  rw [List.range_succ_eq_map, List.map_cons, List.map_map]
  congr 1
  apply List.map_congr_left
  intro k hk
  have hk' : k < w := List.mem_range.mp hk
  show Nat.digitChar (n / 10 ^ (w + 1 - 1 - Nat.succ k) % 10) =
    Nat.digitChar (n / 10 ^ (w - 1 - k) % 10)
  rw [show w + 1 - 1 - Nat.succ k = w - 1 - k from by omega]

theorem mod_pow_div_mod (n e w : Nat) (h : e < w) :
    n % 10 ^ w / 10 ^ e % 10 = n / 10 ^ e % 10 := by
  have hsplit : (10 : Nat) ^ w = 10 ^ e * 10 ^ (w - e) := by
    rw [← pow_add]
    congr 1
    omega
  rw [hsplit, Nat.mod_mul_right_div_self]
  exact Nat.mod_mod_of_dvd _ (dvd_pow_self 10 (by omega : w - e ≠ 0))

theorem extDigits_mod (w n : Nat) : extDigits w (n % 10 ^ w) = extDigits w n := by
  unfold extDigits
  apply List.map_congr_left
  intro k hk
  have hk' : k < w := List.mem_range.mp hk
  congr 1
  exact mod_pow_div_mod n (w - 1 - k) w (by omega)

/-- For numbers within the width, the zero-padded formatting of the
source agrees with the exact-width digit spelling. -/
theorem fmt0d_eq_extDigits :
    ∀ w, 1 ≤ w → ∀ n, n < 10 ^ w → fmt0d w n = extDigits w n := by
  intro w
  induction w with
  | zero => intro h; exact absurd h (by omega)
  | succ w ih =>
    intro _ n hn
    by_cases hw : w = 0
    · subst hw
      have h10 : n < 10 := by simpa using hn
      unfold fmt0d extDigits
      rw [decRepr_small h10]
      simp [Nat.mod_eq_of_lt h10]
    · have hw1 : 1 ≤ w := by omega
      have hdiv : n / 10 < 10 ^ w := by
        rw [Nat.div_lt_iff_lt_mul (by norm_num)]
        calc n < 10 ^ (w + 1) := hn
          _ = 10 ^ w * 10 := by ring
      rw [extDigits_succ_last, ← ih hw1 (n / 10) hdiv]
      obtain ⟨v, rfl⟩ : ∃ v, w = v + 1 := ⟨w - 1, by omega⟩
      by_cases h0 : n = 0
      · subst h0
        show fmt0d (v + 1 + 1) 0 = fmt0d (v + 1) (0 / 10) ++ [Nat.digitChar (0 % 10)]
        unfold fmt0d
        have hz : decRepr 0 = [('0')] := rfl
        rw [Nat.zero_div, hz]
        simp only [List.length_cons, List.length_nil]
        rw [show v + 1 + 1 - (0 + 1) = v + 1 from by omega,
          show v + 1 - (0 + 1) = v from by omega]
        rw [List.replicate_succ' v]
        simp [Nat.digitChar]
      · by_cases hsm : n < 10
        · have hq : n / 10 = 0 := Nat.div_eq_of_lt hsm
          have hr : n % 10 = n := Nat.mod_eq_of_lt hsm
          rw [hq, hr]
          unfold fmt0d
          rw [decRepr_small hsm, show decRepr 0 = [('0')] from rfl]
          simp only [List.length_cons, List.length_nil]
          rw [show v + 1 + 1 - (0 + 1) = v + 1 from by omega,
            show v + 1 - (0 + 1) = v from by omega]
          rw [List.replicate_succ' v]
        · have h10 : 10 ≤ n := by omega
          unfold fmt0d
          rw [decRepr_ten_le h10, List.length_append]
          simp only [List.length_cons, List.length_nil]
          rw [show v + 1 + 1 - ((decRepr (n / 10)).length + (0 + 1)) =
            v + 1 - (decRepr (n / 10)).length from by omega]
          rw [← List.append_assoc]

/-! ## Lexicographic order facts (towards C5) -/

theorem lexLtB_cons_lt {a b : Char} (as bs : List Char) (h : a < b) :
    lexLtB (a :: as) (b :: bs) = true := by
  simp [lexLtB, h]

theorem lexLtB_cons_eq (a : Char) (as bs : List Char) :
    lexLtB (a :: as) (a :: bs) = lexLtB as bs := by
  simp [lexLtB, lt_irrefl a]

theorem lexLtB_irrefl : ∀ l : List Char, lexLtB l l = false := by
  intro l
  induction l with
  | nil => rfl
  | cons c cs ih => rw [lexLtB_cons_eq]; exact ih

theorem lexLtB_ne {a b : List Char} (h : lexLtB a b = true) : a ≠ b := by
  intro he
  subst he
  rw [lexLtB_irrefl] at h
  cases h

theorem lexLtB_append_left : ∀ (p a b : List Char),
    lexLtB (p ++ a) (p ++ b) = lexLtB a b := by
  intro p a b
  induction p with
  | nil => rfl
  | cons c cs ih => simpa [List.cons_append, lexLtB_cons_eq] using ih

theorem digitChar_mono : ∀ b, b < 10 → ∀ a, a < b →
    Nat.digitChar a < Nat.digitChar b := by
  decide

theorem extDigits_lexLt : ∀ w i j, i < j → j < 10 ^ w →
    lexLtB (extDigits w i) (extDigits w j) = true := by
  intro w
  induction w with
  | zero =>
    intro i j hij hj
    simp only [pow_zero] at hj
    omega
  | succ w ih =>
    intro i j hij hj
    have hpow : 0 < (10 : Nat) ^ w := pow_pos (by norm_num) w
    have hjd : j / 10 ^ w < 10 := by
      rw [Nat.div_lt_iff_lt_mul hpow]
      calc j < 10 ^ (w + 1) := hj
        _ = 10 * 10 ^ w := by ring
    have hid : i / 10 ^ w ≤ j / 10 ^ w := Nat.div_le_div_right (le_of_lt hij)
    rw [extDigits_msb, extDigits_msb]
    rcases lt_or_eq_of_le hid with hlt | heq
    · apply lexLtB_cons_lt
      rw [Nat.mod_eq_of_lt (lt_of_le_of_lt hid hjd), Nat.mod_eq_of_lt hjd]
      exact digitChar_mono _ hjd _ hlt
    · rw [heq, lexLtB_cons_eq, ← extDigits_mod w i, ← extDigits_mod w j]
      apply ih
      · have d1 := Nat.div_add_mod i (10 ^ w)
        have d2 := Nat.div_add_mod j (10 ^ w)
        rw [heq] at d1
        omega
      · exact Nat.mod_lt _ hpow

theorem pyStrLt_common (s : String) (a b : List Char) :
    pyStrLt (s ++ String.mk a) (s ++ String.mk b) = lexLtB a b := by
  unfold pyStrLt
  show lexLtB (s ++ String.mk a).data (s ++ String.mk b).data = lexLtB a b
  rw [String.data_append, String.data_append]
  exact lexLtB_append_left s.data a b

/-! ## Claim about volume naming (C5) -/

/-- **C5.** The `i`-th generated volume name is the node name, an
underscore, and `i` zero-padded to width `len(str(count-1))` — the
number of decimal digits of `count - 1`; within one node's volume set
the names are pairwise distinct and lexically sorted in creation order;
and concretely `count = 12` yields `name_00` … `name_11` while
`count = 1` yields `name_0`. -/
theorem volume_names_padded_distinct_sorted (name : String) (count i j : Nat)
    (hij : i < j) (hj : j < count) :
    (volNames name count)[i]? =
      some (name ++ ("_") ++ String.mk (fmt0d (numDecimalDigits (count - 1)) i)) ∧
    (volNames name count)[j]? =
      some (name ++ ("_") ++ String.mk (fmt0d (numDecimalDigits (count - 1)) j)) ∧
    name ++ ("_") ++ String.mk (fmt0d (numDecimalDigits (count - 1)) i) ≠
      name ++ ("_") ++ String.mk (fmt0d (numDecimalDigits (count - 1)) j) ∧
    pyStrLt (name ++ ("_") ++ String.mk (fmt0d (numDecimalDigits (count - 1)) i))
      (name ++ ("_") ++ String.mk (fmt0d (numDecimalDigits (count - 1)) j)) = true ∧
    volNames ("name") 12 =
      [("name_00"), ("name_01"), ("name_02"), ("name_03"), ("name_04"), ("name_05"),
       ("name_06"), ("name_07"), ("name_08"), ("name_09"), ("name_10"), ("name_11")] ∧
    volNames ("name") 1 = [("name_0")] := by
  have hwidth := decRepr_length (count - 1)
  have hwpos : 1 ≤ numDecimalDigits (count - 1) := hwidth ▸ decRepr_length_pos (count - 1)
  have hcpow : count - 1 < 10 ^ numDecimalDigits (count - 1) :=
    hwidth ▸ lt_pow_decRepr_length (count - 1)
  have hjpow : j < 10 ^ numDecimalDigits (count - 1) := by omega
  have hlex : lexLtB (fmt0d (numDecimalDigits (count - 1)) i)
      (fmt0d (numDecimalDigits (count - 1)) j) = true := by
    rw [fmt0d_eq_extDigits _ hwpos i (by omega), fmt0d_eq_extDigits _ hwpos j hjpow]
    exact extDigits_lexLt _ i j hij hjpow
  have hget : ∀ k, k < count → (volNames name count)[k]? =
      some (name ++ ("_") ++ String.mk (fmt0d (numDecimalDigits (count - 1)) k)) := by
    intro k hk
    unfold volNames
    rw [List.getElem?_map, List.getElem?_range hk, hwidth]
    rfl
  refine ⟨hget i (by omega), hget j hj, ?_, ?_, ?_, ?_⟩
  · intro he
    have he2 : String.mk (fmt0d (numDecimalDigits (count - 1)) i) =
        String.mk (fmt0d (numDecimalDigits (count - 1)) j) :=
      (strApp_inj (name ++ ("_")) _ _).mp he
    exact lexLtB_ne hlex (congrArg String.data he2)
  · rw [show name ++ ("_") ++ String.mk (fmt0d (numDecimalDigits (count - 1)) i) =
      (name ++ ("_")) ++ String.mk (fmt0d (numDecimalDigits (count - 1)) i) from rfl,
      show name ++ ("_") ++ String.mk (fmt0d (numDecimalDigits (count - 1)) j) =
      (name ++ ("_")) ++ String.mk (fmt0d (numDecimalDigits (count - 1)) j) from rfl,
      pyStrLt_common]
    exact hlex
  · simp [volNames, decRepr, fmt0d, Nat.digitChar, List.range_succ]
  · simp [volNames, decRepr, fmt0d, Nat.digitChar, List.range_succ]

/-- Witness for C5: twelve volumes on node `name`; the first and last
names are `name_00` and `name_11`, distinct and in lexical order. -/
theorem volume_names_padded_distinct_sorted_witness :
    0 < 11 ∧ 11 < 12 ∧
    ((volNames ("name") 12)[0]? =
      some (("name") ++ ("_") ++ String.mk (fmt0d (numDecimalDigits (12 - 1)) 0)) ∧
    (volNames ("name") 12)[11]? =
      some (("name") ++ ("_") ++ String.mk (fmt0d (numDecimalDigits (12 - 1)) 11)) ∧
    ("name") ++ ("_") ++ String.mk (fmt0d (numDecimalDigits (12 - 1)) 0) ≠
      ("name") ++ ("_") ++ String.mk (fmt0d (numDecimalDigits (12 - 1)) 11) ∧
    pyStrLt (("name") ++ ("_") ++ String.mk (fmt0d (numDecimalDigits (12 - 1)) 0))
      (("name") ++ ("_") ++ String.mk (fmt0d (numDecimalDigits (12 - 1)) 11)) = true ∧
    volNames ("name") 12 =
      [("name_00"), ("name_01"), ("name_02"), ("name_03"), ("name_04"), ("name_05"),
       ("name_06"), ("name_07"), ("name_08"), ("name_09"), ("name_10"), ("name_11")] ∧
    volNames ("name") 1 = [("name_0")]) :=
  ⟨by decide, by decide,
    volume_names_padded_distinct_sorted ("name") 12 0 11 (by decide) (by decide)⟩

/-! ## Claims about volume rollback (C6) -/

/-- `vol_names` for five volumes: width `len(str(4)) = 1`. -/
theorem volNames_five (name : String) :
    volNames name 5 =
      [name ++ ("_") ++ String.mk [('0')], name ++ ("_") ++ String.mk [('1')],
       name ++ ("_") ++ String.mk [('2')], name ++ ("_") ++ String.mk [('3')],
       name ++ ("_") ++ String.mk [('4')]] := by
  simp [volNames, decRepr, fmt0d, Nat.digitChar, List.range_succ]

/-- **C6 (counterexample).** Five volumes requested against node `node`,
attach of the third scripted to fail: the code destroys *three* volumes
(`node_0`, `node_1` and `node_2`, the created-but-unattached third
included), not "exactly the first 2" as claimed. -/
theorem createVolumes_third_attach_fails_destroys_three :
    (createVolumes ⟨fun _ => true, fun k => k != 2, fun _ => true, fun _ => true⟩
      ("node") 5 1 ⟨[]⟩ []).1 = false ∧
    destroyedNames (createVolumes ⟨fun _ => true, fun k => k != 2, fun _ => true,
      fun _ => true⟩ ("node") 5 1 ⟨[]⟩ []).2.2 =
      [("node_0"), ("node_1"), ("node_2")] ∧
    destroyedNames (createVolumes ⟨fun _ => true, fun k => k != 2, fun _ => true,
      fun _ => true⟩ ("node") 5 1 ⟨[]⟩ []).2.2 ≠ [("node_0"), ("node_1")] ∧
    (createVolumes ⟨fun _ => true, fun k => k != 2, fun _ => true, fun _ => true⟩
      ("node") 5 1 ⟨[]⟩ []).2.1 = ⟨[]⟩ := by
  have h5 : volNames ("node") 5 =
      [("node_0"), ("node_1"), ("node_2"), ("node_3"), ("node_4")] := by
    simpa using volNames_five ("node")
  simp only [createVolumes, h5]
  decide

/-- **C6 (amended).** With attach of the third of five volumes scripted
to fail after its create succeeded, the Volume Manager stops creating
further volumes (only three creates happen), detaches and destroys all
three volumes created so far in this call — the created-but-unattached
third one included — reports failure to the caller, and a subsequent
teardown by node-name prefix finds zero remaining matching volumes. -/
theorem createVolumes_third_attach_fails_rollback (name : String) (sz : Nat) :
    (createVolumes ⟨fun _ => true, fun k => k != 2, fun _ => true, fun _ => true⟩
      name 5 sz ⟨[]⟩ []).1 = false ∧
    createdNames (createVolumes ⟨fun _ => true, fun k => k != 2, fun _ => true,
      fun _ => true⟩ name 5 sz ⟨[]⟩ []).2.2 = (volNames name 5).take 3 ∧
    detachedNames (createVolumes ⟨fun _ => true, fun k => k != 2, fun _ => true,
      fun _ => true⟩ name 5 sz ⟨[]⟩ []).2.2 = (volNames name 5).take 3 ∧
    destroyedNames (createVolumes ⟨fun _ => true, fun k => k != 2, fun _ => true,
      fun _ => true⟩ name 5 sz ⟨[]⟩ []).2.2 = (volNames name 5).take 3 ∧
    (createVolumes ⟨fun _ => true, fun k => k != 2, fun _ => true, fun _ => true⟩
      name 5 sz ⟨[]⟩ []).2.1.volumes.filter
        (fun v => pyStartswith (name ++ ("_")) v.name) = [] := by
  simp only [createVolumes, volNames_five]
  simp [createVolumesLoop, destroyVolumes, destroyStep, strApp_inj,
    pyStartswith_self_append, createdNames, detachedNames, destroyedNames,
    String.ext_iff, List.filter_cons, List.filter_nil, bne_iff_ne,
    List.filterMap_cons, List.filterMap_nil]

end OpenStack
